import Mathlib

/-!
Verification of `pyrogram/methods/advanced/save_file.py`.

The module under verification uploads a file to Telegram in fixed-size parts.
A producer loop (`SaveFile.save_file`) reads 512 KiB chunks, builds
`upload.SaveBigFilePart` / `upload.SaveFilePart` requests and hands them to a
pool of worker tasks through a capacity-1 `asyncio.Queue`; the `finally`
clause of the producer enqueues one `None` sentinel per worker and then
`asyncio.gather`s the workers.

The shallow embedding below models one call of `save_file` as a pure
function producing a `Run`: the ordered list of observable events of the
producer (part-request enqueues, progress notifications, shutdown
sentinels), the outcome (value returned or exception propagated), and a few
scalar observables (number of worker tasks created, whether the worker pool
was awaited, whether the self-opened stream was closed, whether the md5
accumulator was allocated, how the producer loop exited).

Worker-side behaviour (`file_upload_worker`) is concurrent I/O; its
observables relevant to the claims (how many shutdown sentinels are
enqueued, and that the coordinator awaits the pool) are captured on the
producer side.  `hashlib.md5` is external to the repository, so the digest
function is a parameter `digest : List Nat → List Nat` of the model; the
hex finalisation `"".join(hex(i)[2:].zfill(2) for i in digest)` is embedded
concretely.  Exceptions raised inside the producer loop (cancellation via
`StopTransmission`, or any other exception at one of the loop's suspension
points) are modelled by an `interrupt` parameter that fires at the start of
a given loop iteration.
-/

namespace Pyro

/-- A part-upload request, `raw.functions.upload.SaveBigFilePart` or
`raw.functions.upload.SaveFilePart` (save_file.py lines 236-247).
Byte payloads are modelled as `List Nat`. -/
inductive Rpc where
  | saveBigFilePart (file_id : Int) (file_part : Nat) (file_total_parts : Nat) (bytes : List Nat)
  | saveFilePart (file_id : Int) (file_part : Nat) (bytes : List Nat)
deriving DecidableEq

/-- An observable event of the producer: enqueue of a part request
(`await queue.put(rpc)`), enqueue of a shutdown sentinel
(`await queue.put(None)`), or a progress notification
(`await progress_callback(...)`). -/
inductive Event where
  | put (rpc : Rpc)
  | sentinel
  | progress (current : Nat)
deriving DecidableEq

/-- The value returned on success: `raw.types.InputFileBig` (big mode) or
`raw.types.InputFile` (small mode, with optional md5 checksum string)
(save_file.py lines 264-277). -/
inductive FileRef where
  | inputFileBig (id : Int) (parts : Nat) (name : String)
  | inputFile (id : Int) (parts : Nat) (name : String) (md5_checksum : Option String)
deriving DecidableEq

/-- The three `ValueError`s raised by `open_media_file`
(save_file.py lines 115, 123, 127), named after the spec's taxonomy. -/
inductive MediaError where
  | invalidInput
  | emptyFile
  | sizeLimitExceeded
deriving DecidableEq

/-- How one call of `save_file` terminates: a value is returned (possibly
`None`), the caller's `StopTransmission` cancellation propagates, or a
validation `ValueError` propagates. -/
inductive Outcome where
  | returned (r : Option FileRef)
  | stopTransmission
  | error (e : MediaError)
deriving DecidableEq

/-- The `path` argument of `save_file` when it is not `None`: a filesystem
path (carrying the bytes of the file it designates; its `.name` is the path
string), an already-open binary stream (`io.IOBase`, whose `.name`
attribute may be absent, defaulting to `"file.jpg"`), or any other value
(neither `str`/`PurePath` nor `io.IOBase`). -/
inductive MediaInput where
  | path (bytes : List Nat) (name : String)
  | stream (bytes : List Nat) (name : Option String)
  | invalid
deriving DecidableEq

/-- Whether the input is a filesystem path, i.e. whether `open_media_file`
opens (and hence owns) the stream itself (`fp_close = True`). -/
def MediaInput.isPath : MediaInput → Bool
  | .path _ _ => true
  | _ => false

/-- The bytes designated by the input, if it is a valid source. -/
def MediaInput.bytesOf : MediaInput → Option (List Nat)
  | .path bytes _ => some bytes
  | .stream bytes _ => some bytes
  | .invalid => none

/-- `part_size = 512 * 1024` (save_file.py line 209). -/
def part_size : Nat := 512 * 1024

/-- The account size limit in bytes:
`file_size_limit_mib = 4_000 if me and me.is_premium else 2_000`, times
`1024 * 1024` (save_file.py lines 125-126).  `me` is modelled as
`Option Bool` carrying `is_premium`. -/
def limitBytes (me : Option Bool) : Nat :=
  (if me = some true then 4000 else 2000) * 1024 * 1024

/-- Result of a successful `open_media_file`: the opened stream's bytes,
the size obtained by seek-to-end/tell, the file name, and whether the
component opened (and must close) the stream itself. -/
structure OpenedFile where
  bytes : List Nat
  file_size : Nat
  file_name : String
  fp_close : Bool
deriving DecidableEq

/-- Embedding of the `open_media_file` context manager's validation phase
(save_file.py lines 103-127): dispatch on the input kind, determine
the size, reject empty and over-limit files.  The `ValueError`s raised
before the `try/finally` are returned as `.error`; note that on those
paths the `finally` that closes a self-opened stream is never reached. -/
def open_media_file (me : Option Bool) (path : MediaInput) :
    Except MediaError OpenedFile :=
  let opened : Option (List Nat × String × Bool) :=
    match path with
    | .path bytes name => some (bytes, name, true)
    | .stream bytes name => some (bytes, name.getD "file.jpg", false)
    | .invalid => none
  match opened with
  | none => .error .invalidInput
  | some (bytes, file_name, fp_close) =>
    let file_size := bytes.length
    if file_size = 0 then .error .emptyFile
    else
      let file_size_limit_mib := if me = some true then 4000 else 2000
      if file_size > file_size_limit_mib * 1024 * 1024 then .error .sizeLimitExceeded
      else .ok ⟨bytes, file_size, file_name, fp_close⟩

/-- `hex(i)[2:].zfill(2)` for one digest byte (save_file.py line 232):
lowercase hexadecimal, left-padded with one `0` to width 2. -/
def pyHexByte (i : Nat) : String :=
  let s := Nat.toDigits 16 i
  if s.length < 2 then String.mk ('0' :: s) else String.mk s

/-- `"".join([hex(i)[2:].zfill(2) for i in md5_sum.digest()])`
(save_file.py line 232). -/
def md5HexJoin (digestBytes : List Nat) : String :=
  String.join (digestBytes.map pyHexByte)

/-- How the producer loop (the `while True` at save_file.py lines 227-258)
exits: normal `break` at end of input (carrying the finalised md5 hex
string when the accumulator was active), the early `return` of the
resumption path (line 252), a `StopTransmission` cancellation, or any
other exception (caught and logged at lines 261-262). -/
inductive LoopExit where
  | finished (md5_sum : Option String)
  | resumeReturn
  | stop
  | errorLogged
deriving DecidableEq

/-- Events emitted by the producer loop together with how it exited. -/
structure LoopOut where
  events : List Event
  exit : LoopExit
deriving DecidableEq

/-- Whether the injected exception fires at iteration `iter` of the loop,
and if so whether it is the `StopTransmission` cancellation (`true`) or a
generic exception (`false`). -/
def interruptsAt (interrupt : Option (Nat × Bool)) (iter : Nat) : Option Bool :=
  match interrupt with
  | some (n, isStop) => if n = iter then some isStop else none
  | none => none

/-- Embedding of the producer loop (save_file.py lines 227-258).  One
iteration: read a chunk (`fp.read(part_size)`, i.e. the next `part_size`
bytes of `remaining`); on an empty chunk finalise the md5 accumulator (small
non-resume mode only) and break; otherwise build the
`SaveBigFilePart`/`SaveFilePart` request, enqueue it, return early when
`is_missing_part`, else feed the chunk to the accumulator (small mode),
increment `file_part` and emit one progress notification with
`min(file_part * part_size, file_size)`.  `fed` is the byte sequence fed to
the md5 accumulator so far; `digest` stands for `hashlib.md5(...).digest()`
on the final fed sequence. -/
def producerLoop (is_big is_missing_part : Bool) (file_id : Int)
    (file_total_parts file_size : Nat) (digest : List Nat → List Nat)
    (interrupt : Option (Nat × Bool)) (iter file_part : Nat)
    (remaining fed : List Nat) : LoopOut :=
  match interruptsAt interrupt iter with
  | some isStop => ⟨[], if isStop then .stop else .errorLogged⟩
  | none =>
    if h : remaining.take part_size = [] then
      ⟨[], .finished (if !is_big && !is_missing_part
                      then some (md5HexJoin (digest fed)) else none)⟩
    else
      let chunk := remaining.take part_size
      let rpc := if is_big then
          Rpc.saveBigFilePart file_id file_part file_total_parts chunk
        else
          Rpc.saveFilePart file_id file_part chunk
      if is_missing_part then
        ⟨[Event.put rpc], .resumeReturn⟩
      else
        let fed' := if is_big then fed else fed ++ chunk
        let rest := producerLoop is_big is_missing_part file_id file_total_parts
          file_size digest interrupt (iter + 1) (file_part + 1)
          (remaining.drop part_size) fed'
        ⟨Event.put rpc :: Event.progress (min ((file_part + 1) * part_size) file_size)
            :: rest.events,
         rest.exit⟩
termination_by remaining.length
decreasing_by
  have hne : remaining ≠ [] := by
    intro he
    subst he
    simp [List.take_nil] at h
  have hp : 0 < part_size := by decide
  have hl : 0 < remaining.length := List.length_pos.mpr hne
  simp only [List.length_drop]
  omega

/-- The value `save_file` completes with, as a function of how the producer
loop exited: the `except`/`else` clauses at save_file.py lines 259-277.
Normal break returns `InputFileBig`/`InputFile`; the resumption `return`
and the logged generic exception produce no result; `StopTransmission`
is re-raised. -/
def outcomeOf (is_big : Bool) (fid : Int) (file_total_parts : Nat)
    (file_name : String) : LoopExit → Outcome
  | .finished md5_sum =>
    .returned (some (if is_big then
        FileRef.inputFileBig fid file_total_parts file_name
      else
        FileRef.inputFile fid file_total_parts file_name md5_sum))
  | .resumeReturn => .returned none
  | .stop => .stopTransmission
  | .errorLogged => .returned none

/-- `file_id = file_id or self.rnd_id()` (save_file.py line 215), with
Python truthiness: both `None` and `0` are falsy, so a caller-supplied
`file_id` of `0` is replaced by a fresh random identifier. -/
def pyOr (file_id : Option Int) (rnd_id : Int) : Int :=
  match file_id with
  | some i => if i = 0 then rnd_id else i
  | none => rnd_id

/-- One call of `save_file`, as a record of its observables. -/
structure Run where
  events : List Event
  outcome : Outcome
  workers_count : Nat
  workersAwaited : Bool
  fpOpened : Bool
  fpClosed : Bool
  md5Active : Bool
  loopExit : Option LoopExit
deriving DecidableEq

/-- Embedding of `SaveFile.save_file` (save_file.py lines 137-282).
`rnd_id` stands for the value `self.rnd_id()` would produce.  The `None`
check (line 197-198) precedes `open_media_file`; on a validation error no
worker task is created and the self-opened stream is not closed (the
`ValueError` is raised before the context manager's `try/finally`).  On the
valid path: compute `file_total_parts` (`math.ceil(file_size / part_size)`,
exact here as `(file_size + part_size - 1) / part_size` since `part_size`
is a power of two and `file_size < 2^53`), `is_big`, `workers_count`,
`is_missing_part`, `file_id or self.rnd_id()` (Python truthiness: `None`
and `0` are falsy), allocate the md5 accumulator iff small non-resume,
seek to `part_size * file_part`, run the producer loop, and in `finally`
enqueue `workers_count` sentinels and gather the workers; the outcome is
determined by how the loop exited (lines 259-277). -/
def save_file (me : Option Bool) (rnd_id : Int) (digest : List Nat → List Nat)
    (path : Option MediaInput) (file_id : Option Int) (file_part : Nat)
    (interrupt : Option (Nat × Bool)) : Run :=
  match path with
  | none =>
    { events := [], outcome := .returned none, workers_count := 0,
      workersAwaited := false, fpOpened := false, fpClosed := false,
      md5Active := false, loopExit := none }
  | some p =>
    match open_media_file me p with
    | .error e =>
      { events := [], outcome := .error e, workers_count := 0,
        workersAwaited := false, fpOpened := p.isPath, fpClosed := false,
        md5Active := false, loopExit := none }
    | .ok f =>
      let file_total_parts := (f.file_size + part_size - 1) / part_size
      let is_big := decide (f.file_size > 10 * 1024 * 1024)
      let workers_count := if is_big then 4 else 1
      let is_missing_part := file_id.isSome
      let fid : Int := pyOr file_id rnd_id
      let lo := producerLoop is_big is_missing_part fid file_total_parts
        f.file_size digest interrupt 0 file_part
        (f.bytes.drop (part_size * file_part)) []
      { events := lo.events ++ List.replicate workers_count Event.sentinel,
        outcome := outcomeOf is_big fid file_total_parts f.file_name lo.exit,
        workers_count := workers_count,
        workersAwaited := true,
        fpOpened := f.fp_close,
        fpClosed := f.fp_close,
        md5Active := !is_big && !is_missing_part,
        loopExit := some lo.exit }

/-- The list of `part_size`-byte chunks of a byte sequence, the last chunk
possibly shorter: the successive results of `fp.read(part_size)`. -/
def chunksOf (l : List Nat) : List (List Nat) :=
  if h : l = [] then [] else l.take part_size :: chunksOf (l.drop part_size)
termination_by l.length
decreasing_by
  have hp : 0 < part_size := by decide
  have hl : 0 < l.length := List.length_pos.mpr h
  simp only [List.length_drop]
  omega

/-- The request the producer builds for chunk `chunk` at index `file_part`:
`SaveBigFilePart` (with the total part count) in big mode, `SaveFilePart`
otherwise. -/
def mkRpc (is_big : Bool) (file_id : Int) (file_part file_total_parts : Nat)
    (chunk : List Nat) : Rpc :=
  if is_big then Rpc.saveBigFilePart file_id file_part file_total_parts chunk
  else Rpc.saveFilePart file_id file_part chunk

/-- Closed form of the event trace of a full (non-resume, uninterrupted)
producer run over the given chunks, starting at part index `file_part`:
each chunk contributes one enqueue followed by one progress notification
carrying `min ((file_part + 1) * part_size) file_size` for the incremented
running index. -/
def dispatchEvents (is_big : Bool) (file_id : Int)
    (file_total_parts file_size : Nat) : Nat → List (List Nat) → List Event
  | _, [] => []
  | file_part, c :: cs =>
    Event.put (mkRpc is_big file_id file_part file_total_parts c) ::
    Event.progress (min ((file_part + 1) * part_size) file_size) ::
    dispatchEvents is_big file_id file_total_parts file_size (file_part + 1) cs

/-- Closed form of the requests enqueued for the given chunks, with part
indices counting up from `file_part`. -/
def rpcsFor (is_big : Bool) (file_id : Int) (file_total_parts : Nat) :
    Nat → List (List Nat) → List Rpc
  | _, [] => []
  | file_part, c :: cs =>
    mkRpc is_big file_id file_part file_total_parts c ::
    rpcsFor is_big file_id file_total_parts (file_part + 1) cs

/-- Closed form of the progress values notified for `n` consecutive parts
starting at running index `file_part`: the j-th value is
`min ((file_part + j + 1) * part_size) file_size`. -/
def progressSpec (file_size : Nat) : Nat → Nat → List Nat
  | _, 0 => []
  | file_part, n + 1 =>
    min ((file_part + 1) * part_size) file_size ::
    progressSpec file_size (file_part + 1) n

/-- The part requests among a list of events, in order. -/
def putRpcs : List Event → List Rpc
  | [] => []
  | .put r :: es => r :: putRpcs es
  | .sentinel :: es => putRpcs es
  | .progress _ :: es => putRpcs es

/-- The progress values among a list of events, in order. -/
def progressValues : List Event → List Nat
  | [] => []
  | .progress c :: es => c :: progressValues es
  | .put _ :: es => progressValues es
  | .sentinel :: es => progressValues es

/-- The number of shutdown sentinels among a list of events. -/
def sentinelCount (es : List Event) : Nat :=
  es.countP fun e => match e with | .sentinel => true | _ => false

/-- The run of `save_file` after validation succeeded: the ok-branch of
`save_file`, spelt out over the opened file's fields (for a successful
`open_media_file` the reported size is always the byte count). -/
def runValid (rnd_id : Int) (digest : List Nat → List Nat)
    (bytes : List Nat) (file_name : String) (fp_close : Bool)
    (file_id : Option Int) (file_part : Nat)
    (interrupt : Option (Nat × Bool)) : Run :=
  let file_total_parts := (bytes.length + part_size - 1) / part_size
  let is_big := decide (bytes.length > 10 * 1024 * 1024)
  let workers_count := if is_big then 4 else 1
  let is_missing_part := file_id.isSome
  let fid : Int := pyOr file_id rnd_id
  let lo := producerLoop is_big is_missing_part fid file_total_parts
    bytes.length digest interrupt 0 file_part
    (bytes.drop (part_size * file_part)) []
  { events := lo.events ++ List.replicate workers_count Event.sentinel,
    outcome := outcomeOf is_big fid file_total_parts file_name lo.exit,
    workers_count := workers_count,
    workersAwaited := true,
    fpOpened := fp_close,
    fpClosed := fp_close,
    md5Active := !is_big && !is_missing_part,
    loopExit := some lo.exit }

/-- On a source that `open_media_file` accepts, `save_file` runs its
dispatch phase: it equals `runValid` on the opened file's fields. -/
theorem save_file_valid (me : Option Bool) (rnd_id : Int)
    (digest : List Nat → List Nat) (src : MediaInput)
    (bytes : List Nat) (nm : String) (cl : Bool)
    (file_id : Option Int) (file_part : Nat) (interrupt : Option (Nat × Bool))
    (hsrc : open_media_file me src = .ok ⟨bytes, bytes.length, nm, cl⟩) :
    save_file me rnd_id digest (some src) file_id file_part interrupt =
      runValid rnd_id digest bytes nm cl file_id file_part interrupt := by
  simp only [save_file, hsrc, runValid]

/-- `open_media_file` accepts a caller-provided stream of positive size
within the account limit, reporting its byte count as the size and taking
no ownership. -/
theorem open_media_file_stream (me : Option Bool) (bytes : List Nat)
    (name : Option String) (h0 : bytes.length ≠ 0)
    (hlim : ¬ bytes.length > (if me = some true then 4000 else 2000) * 1024 * 1024) :
    open_media_file me (.stream bytes name) =
      .ok ⟨bytes, bytes.length, name.getD "file.jpg", false⟩ := by
  simp only [open_media_file]
  rw [if_neg h0, if_neg hlim]

/-- A nonempty list still has a nonempty `part_size`-byte head chunk. -/
theorem take_part_size_ne_nil {l : List Nat} (h : l ≠ []) :
    l.take part_size ≠ [] := by
  simp [List.take_eq_nil_iff, h, part_size]

/-- The producer loop, when the injected exception fires at the current
iteration, emits nothing and exits by the corresponding exception. -/
theorem producerLoop_interrupt (is_big is_missing_part : Bool) (fid : Int)
    (tp size : Nat) (dg : List Nat → List Nat) (intr : Option (Nat × Bool))
    (iter fpart : Nat) (remaining fed : List Nat) (b : Bool)
    (hi : interruptsAt intr iter = some b) :
    producerLoop is_big is_missing_part fid tp size dg intr iter fpart remaining fed =
      ⟨[], if b then .stop else .errorLogged⟩ := by
  rw [producerLoop, hi]

/-- The producer loop at end of input (uninterrupted): no events, normal
break, md5 finalised exactly in small non-resume mode. -/
theorem producerLoop_atEnd (is_big is_missing_part : Bool) (fid : Int)
    (tp size : Nat) (dg : List Nat → List Nat) (intr : Option (Nat × Bool))
    (iter fpart : Nat) (fed : List Nat)
    (hi : interruptsAt intr iter = none) :
    producerLoop is_big is_missing_part fid tp size dg intr iter fpart [] fed =
      ⟨[], .finished (if !is_big && !is_missing_part
                      then some (md5HexJoin (dg fed)) else none)⟩ := by
  rw [producerLoop, hi]
  simp

/-- The producer loop in resumption mode (uninterrupted, input remaining):
exactly one enqueue of the request for the current part, then the early
`return`. -/
theorem producerLoop_resume (is_big : Bool) (fid : Int)
    (tp size : Nat) (dg : List Nat → List Nat) (intr : Option (Nat × Bool))
    (iter fpart : Nat) (remaining fed : List Nat)
    (hi : interruptsAt intr iter = none) (hne : remaining ≠ []) :
    producerLoop is_big true fid tp size dg intr iter fpart remaining fed =
      ⟨[Event.put (mkRpc is_big fid fpart tp (remaining.take part_size))],
       .resumeReturn⟩ := by
  rw [producerLoop, hi]
  simp [take_part_size_ne_nil hne, mkRpc]

/-- The producer loop in non-resume mode with no injected exception
processes every chunk: its events are the closed-form dispatch trace, it
exits by the normal break, and the md5 accumulator (small mode) has been
fed exactly the bytes read. -/
theorem producerLoop_run (is_big : Bool) (fid : Int) (tp size : Nat)
    (dg : List Nat → List Nat) :
    ∀ (n : Nat) (remaining : List Nat), remaining.length ≤ n →
      ∀ (iter fpart : Nat) (fed : List Nat),
      producerLoop is_big false fid tp size dg none iter fpart remaining fed =
        ⟨dispatchEvents is_big fid tp size fpart (chunksOf remaining),
         .finished (if is_big then none
                    else some (md5HexJoin (dg (fed ++ remaining))))⟩ := by
  intro n
  induction n with
  | zero =>
    intro remaining hlen iter fpart fed
    have hre : remaining = [] := List.eq_nil_of_length_eq_zero (Nat.le_zero.mp hlen)
    subst hre
    rw [producerLoop]
    cases is_big <;> simp [interruptsAt, chunksOf, dispatchEvents]
  | succ n ih =>
    intro remaining hlen iter fpart fed
    by_cases hre : remaining = []
    · subst hre
      rw [producerLoop]
      cases is_big <;> simp [interruptsAt, chunksOf, dispatchEvents]
    · have hdrop : (remaining.drop part_size).length ≤ n := by
        have hp : 0 < part_size := by decide
        have hl : 0 < remaining.length := List.length_pos.mpr hre
        simp only [List.length_drop]
        omega
      rw [producerLoop, chunksOf]
      cases is_big <;>
        simp [interruptsAt, take_part_size_ne_nil hre, hre, dispatchEvents, mkRpc,
              ih _ hdrop, List.take_append_drop, List.append_assoc]

/-- Fuel-free form of `producerLoop_run`. -/
theorem producerLoop_run_eq (is_big : Bool) (fid : Int) (tp size : Nat)
    (dg : List Nat → List Nat) (iter fpart : Nat) (remaining fed : List Nat) :
    producerLoop is_big false fid tp size dg none iter fpart remaining fed =
      ⟨dispatchEvents is_big fid tp size fpart (chunksOf remaining),
       .finished (if is_big then none
                  else some (md5HexJoin (dg (fed ++ remaining))))⟩ :=
  producerLoop_run is_big fid tp size dg remaining.length remaining le_rfl iter fpart fed

/-- The producer loop never enqueues a shutdown sentinel: sentinels are
enqueued only by the `finally` clause. -/
theorem producerLoop_no_sentinel (is_big is_missing_part : Bool) (fid : Int)
    (tp size : Nat) (dg : List Nat → List Nat) (intr : Option (Nat × Bool)) :
    ∀ (n : Nat) (remaining : List Nat), remaining.length ≤ n →
      ∀ (iter fpart : Nat) (fed : List Nat),
      Event.sentinel ∉
        (producerLoop is_big is_missing_part fid tp size dg intr iter fpart remaining fed).events := by
  intro n
  induction n with
  | zero =>
    intro remaining hlen iter fpart fed
    have hre : remaining = [] := List.eq_nil_of_length_eq_zero (Nat.le_zero.mp hlen)
    subst hre
    rw [producerLoop]
    cases hi : interruptsAt intr iter <;> simp
  | succ n ih =>
    intro remaining hlen iter fpart fed
    rw [producerLoop]
    cases hi : interruptsAt intr iter
    · by_cases hre : remaining = []
      · subst hre; simp
      · have hdrop : (remaining.drop part_size).length ≤ n := by
          have hp : 0 < part_size := by decide
          have hl : 0 < remaining.length := List.length_pos.mpr hre
          simp only [List.length_drop]
          omega
        cases is_missing_part <;>
          simp [take_part_size_ne_nil hre, ih _ hdrop]
    · simp

/-- Fuel-free form of `producerLoop_no_sentinel`. -/
theorem producerLoop_no_sentinel_eq (is_big is_missing_part : Bool) (fid : Int)
    (tp size : Nat) (dg : List Nat → List Nat) (intr : Option (Nat × Bool))
    (iter fpart : Nat) (remaining fed : List Nat) :
    Event.sentinel ∉
      (producerLoop is_big is_missing_part fid tp size dg intr iter fpart remaining fed).events :=
  producerLoop_no_sentinel is_big is_missing_part fid tp size dg intr
    remaining.length remaining le_rfl iter fpart fed

/-- `putRpcs` distributes over list concatenation. -/
theorem putRpcs_append (a b : List Event) :
    putRpcs (a ++ b) = putRpcs a ++ putRpcs b := by
  induction a with
  | nil => rfl
  | cons e es ih => cases e <;> simp [putRpcs, ih]

/-- Shutdown sentinels contribute no part requests. -/
theorem putRpcs_replicate_sentinel (n : Nat) :
    putRpcs (List.replicate n Event.sentinel) = [] := by
  induction n with
  | zero => rfl
  | succ n ih => simp [List.replicate_succ, putRpcs, ih]

/-- `progressValues` distributes over list concatenation. -/
theorem progressValues_append (a b : List Event) :
    progressValues (a ++ b) = progressValues a ++ progressValues b := by
  induction a with
  | nil => rfl
  | cons e es ih => cases e <;> simp [progressValues, ih]

/-- Shutdown sentinels contribute no progress values. -/
theorem progressValues_replicate_sentinel (n : Nat) :
    progressValues (List.replicate n Event.sentinel) = [] := by
  induction n with
  | zero => rfl
  | succ n ih => simp [List.replicate_succ, progressValues, ih]

/-- The part requests of the closed-form dispatch trace, in order. -/
theorem putRpcs_dispatchEvents (is_big : Bool) (fid : Int) (tp size : Nat) :
    ∀ (fpart : Nat) (cs : List (List Nat)),
    putRpcs (dispatchEvents is_big fid tp size fpart cs) = rpcsFor is_big fid tp fpart cs := by
  intro fpart cs
  induction cs generalizing fpart with
  | nil => rfl
  | cons c cs ih => simp [dispatchEvents, rpcsFor, putRpcs, ih]

/-- The progress values of the closed-form dispatch trace. -/
theorem progressValues_dispatchEvents (is_big : Bool) (fid : Int) (tp size : Nat) :
    ∀ (fpart : Nat) (cs : List (List Nat)),
    progressValues (dispatchEvents is_big fid tp size fpart cs) =
      progressSpec size fpart cs.length := by
  intro fpart cs
  induction cs generalizing fpart with
  | nil => rfl
  | cons c cs ih => simp [dispatchEvents, progressSpec, progressValues, ih]

/-- One request is built per chunk. -/
theorem rpcsFor_length (is_big : Bool) (fid : Int) (tp : Nat) :
    ∀ (fpart : Nat) (cs : List (List Nat)),
    (rpcsFor is_big fid tp fpart cs).length = cs.length := by
  intro fpart cs
  induction cs generalizing fpart with
  | nil => rfl
  | cons c cs ih => simp [rpcsFor, ih]

/-- A list without sentinels has sentinel count zero. -/
theorem sentinelCount_eq_zero {es : List Event} (h : Event.sentinel ∉ es) :
    sentinelCount es = 0 := by
  rw [sentinelCount, List.countP_eq_zero]
  intro e he
  cases e <;> simp_all

/-- `sentinelCount` distributes over list concatenation. -/
theorem sentinelCount_append (a b : List Event) :
    sentinelCount (a ++ b) = sentinelCount a + sentinelCount b := by
  simp [sentinelCount, List.countP_append]

/-- A block of `n` sentinels has sentinel count `n`. -/
theorem sentinelCount_replicate (n : Nat) :
    sentinelCount (List.replicate n Event.sentinel) = n := by
  simp [sentinelCount, List.countP_replicate]

/-- `save_file` never completes with a validation error once the dispatch
phase has been entered. -/
theorem outcomeOf_ne_error (is_big : Bool) (fid : Int) (tp : Nat) (nm : String)
    (x : LoopExit) (e : MediaError) :
    ¬ outcomeOf is_big fid tp nm x = Outcome.error e := by
  cases x <;> simp [outcomeOf]

/-- Boolean form of negating a strict comparison of naturals. -/
theorem not_decide_gt (a c : Nat) : (!decide (a > c)) = decide (a ≤ c) := by
  by_cases h : a > c
  · simp [h, show ¬ a ≤ c from by omega]
  · simp [h, show a ≤ c from by omega]

/-- A positive offset strictly inside the byte sequence leaves a nonempty
remainder after the seek. -/
theorem drop_ne_nil_of_lt {bytes : List Nat} {o : Nat} (h : o < bytes.length) :
    bytes.drop o ≠ [] := by
  intro he
  have := congrArg List.length he
  simp only [List.length_drop, List.length_nil] at this
  omega

/-- C1 (amended): a resumption call (`file_id` supplied) whose resumed part
index is in range enqueues exactly one part request and produces no
`FileReference`, but before returning it still enqueues `workers_count`
shutdown sentinels and awaits the worker pool — the `finally` clause at
save_file.py lines 278-282 also runs on the early `return` of line 252, so
the call is not fire-and-forget as the claim states. -/
theorem claim_C1 (me : Option Bool) (rnd : Int) (dg : List Nat → List Nat)
    (src : MediaInput) (bytes : List Nat) (nm : String) (cl : Bool)
    (f : Int) (k : Nat)
    (hsrc : open_media_file me src = .ok ⟨bytes, bytes.length, nm, cl⟩)
    (hk : part_size * k < bytes.length) :
    (save_file me rnd dg (some src) (some f) k none).events =
      Event.put (mkRpc (decide (bytes.length > 10 * 1024 * 1024))
          (if f = 0 then rnd else f) k
          ((bytes.length + part_size - 1) / part_size)
          ((bytes.drop (part_size * k)).take part_size)) ::
        List.replicate (save_file me rnd dg (some src) (some f) k none).workers_count
          Event.sentinel ∧
    (save_file me rnd dg (some src) (some f) k none).outcome = .returned none ∧
    (save_file me rnd dg (some src) (some f) k none).workersAwaited = true := by
  rw [save_file_valid me rnd dg src bytes nm cl (some f) k none hsrc]
  simp only [runValid, Option.isSome_some]
  rw [producerLoop_resume]
  · simp [outcomeOf, pyOr]
  · rfl
  · exact drop_ne_nil_of_lt hk

/-- C1 witness: the amended statement at a concrete resumption call. -/
theorem claim_C1_witness :
    open_media_file none (MediaInput.stream [1, 2, 3] none) =
      .ok ⟨[1, 2, 3], ([1, 2, 3] : List Nat).length, "file.jpg", false⟩ ∧
    part_size * 0 < ([1, 2, 3] : List Nat).length ∧
    ((save_file none 1 (fun l => l) (some (.stream [1, 2, 3] none)) (some 42) 0 none).events =
      Event.put (mkRpc (decide (([1, 2, 3] : List Nat).length > 10 * 1024 * 1024))
          (if (42 : Int) = 0 then 1 else 42) 0
          ((([1, 2, 3] : List Nat).length + part_size - 1) / part_size)
          ((([1, 2, 3] : List Nat).drop (part_size * 0)).take part_size)) ::
        List.replicate
          (save_file none 1 (fun l => l) (some (.stream [1, 2, 3] none)) (some 42) 0 none).workers_count
          Event.sentinel ∧
     (save_file none 1 (fun l => l) (some (.stream [1, 2, 3] none)) (some 42) 0 none).outcome =
       .returned none ∧
     (save_file none 1 (fun l => l) (some (.stream [1, 2, 3] none)) (some 42) 0 none).workersAwaited =
       true) :=
  ⟨rfl, by decide,
   claim_C1 none 1 (fun l => l) (.stream [1, 2, 3] none) [1, 2, 3] "file.jpg" false 42 0
     rfl (by decide)⟩

/-- Whatever the producer loop did, the full call's event trace is the loop
trace followed by exactly `workers_count` shutdown sentinels (no sentinel
comes from the loop itself), and the worker pool is awaited: the `finally`
clause runs on every exit of the dispatch phase. -/
theorem runValid_cleanup (rnd : Int) (dg : List Nat → List Nat)
    (bytes : List Nat) (nm : String) (cl : Bool) (file_id : Option Int)
    (k : Nat) (intr : Option (Nat × Bool)) :
    sentinelCount (runValid rnd dg bytes nm cl file_id k intr).events =
      (runValid rnd dg bytes nm cl file_id k intr).workers_count ∧
    (∃ pre, (runValid rnd dg bytes nm cl file_id k intr).events =
       pre ++ List.replicate (runValid rnd dg bytes nm cl file_id k intr).workers_count
         Event.sentinel ∧ Event.sentinel ∉ pre) ∧
    (runValid rnd dg bytes nm cl file_id k intr).workersAwaited = true := by
  simp only [runValid]
  refine ⟨?_, ?_, trivial⟩
  · rw [sentinelCount_append, sentinelCount_replicate,
      sentinelCount_eq_zero (by apply producerLoop_no_sentinel_eq)]
    simp
  · refine ⟨_, rfl, ?_⟩
    apply producerLoop_no_sentinel_eq

/-- The outcome of a valid call is `outcomeOf` applied to however the
producer loop exited. -/
theorem runValid_outcome_of_exit (rnd : Int) (dg : List Nat → List Nat)
    (bytes : List Nat) (nm : String) (cl : Bool) (file_id : Option Int)
    (k : Nat) (intr : Option (Nat × Bool)) (x : LoopExit)
    (h : (runValid rnd dg bytes nm cl file_id k intr).loopExit = some x) :
    (runValid rnd dg bytes nm cl file_id k intr).outcome =
      outcomeOf (decide (bytes.length > 10 * 1024 * 1024))
        (pyOr file_id rnd)
        ((bytes.length + part_size - 1) / part_size) nm x := by
  simp only [runValid] at h ⊢
  exact congrArg
    (outcomeOf (decide (bytes.length > 10 * 1024 * 1024)) (pyOr file_id rnd)
      ((bytes.length + part_size - 1) / part_size) nm)
    (Option.some.inj h)

/-- An exception injected at the very first suspension point makes the
loop exit by the corresponding exception. -/
theorem save_file_interrupt0 (me : Option Bool) (rnd : Int)
    (dg : List Nat → List Nat) (src : MediaInput)
    (bytes : List Nat) (nm : String) (cl : Bool) (file_id : Option Int)
    (k : Nat) (b : Bool)
    (hsrc : open_media_file me src = .ok ⟨bytes, bytes.length, nm, cl⟩) :
    (save_file me rnd dg (some src) file_id k (some (0, b))).loopExit =
      some (if b then LoopExit.stop else LoopExit.errorLogged) := by
  rw [save_file_valid me rnd dg src bytes nm cl file_id k (some (0, b)) hsrc]
  simp only [runValid]
  rw [producerLoop_interrupt]
  rfl

/-- C2 (confirmed): if the producer loop exits by a generic (non-cancel)
exception, the call logs it and completes with no result instead of
raising, and if it exits by the `StopTransmission` cancellation, the
cancellation propagates; in both cases the trace ends with exactly
`workers_count` shutdown sentinels (none were emitted earlier) and the
worker pool is awaited before control returns — the `finally` cleanup at
save_file.py lines 278-282 runs unconditionally. -/
theorem claim_C2 (me : Option Bool) (rnd : Int) (dg : List Nat → List Nat)
    (src : MediaInput) (bytes : List Nat) (nm : String) (cl : Bool)
    (file_id : Option Int) (k : Nat) (intr : Option (Nat × Bool))
    (hsrc : open_media_file me src = .ok ⟨bytes, bytes.length, nm, cl⟩) :
    ((save_file me rnd dg (some src) file_id k intr).loopExit = some .errorLogged →
       (save_file me rnd dg (some src) file_id k intr).outcome = .returned none ∧
       sentinelCount (save_file me rnd dg (some src) file_id k intr).events =
         (save_file me rnd dg (some src) file_id k intr).workers_count ∧
       (∃ pre, (save_file me rnd dg (some src) file_id k intr).events =
          pre ++ List.replicate
            (save_file me rnd dg (some src) file_id k intr).workers_count
            Event.sentinel ∧ Event.sentinel ∉ pre) ∧
       (save_file me rnd dg (some src) file_id k intr).workersAwaited = true) ∧
    ((save_file me rnd dg (some src) file_id k intr).loopExit = some .stop →
       (save_file me rnd dg (some src) file_id k intr).outcome = .stopTransmission ∧
       sentinelCount (save_file me rnd dg (some src) file_id k intr).events =
         (save_file me rnd dg (some src) file_id k intr).workers_count ∧
       (∃ pre, (save_file me rnd dg (some src) file_id k intr).events =
          pre ++ List.replicate
            (save_file me rnd dg (some src) file_id k intr).workers_count
            Event.sentinel ∧ Event.sentinel ∉ pre) ∧
       (save_file me rnd dg (some src) file_id k intr).workersAwaited = true) := by
  rw [save_file_valid me rnd dg src bytes nm cl file_id k intr hsrc]
  constructor
  · intro h
    refine ⟨?_, runValid_cleanup rnd dg bytes nm cl file_id k intr⟩
    rw [runValid_outcome_of_exit rnd dg bytes nm cl file_id k intr _ h]
    rfl
  · intro h
    refine ⟨?_, runValid_cleanup rnd dg bytes nm cl file_id k intr⟩
    rw [runValid_outcome_of_exit rnd dg bytes nm cl file_id k intr _ h]
    rfl

/-- C2 witness: the two branches at concrete interrupted calls (a generic
exception at the first suspension point, and a cancellation there). -/
theorem claim_C2_witness :
    ((save_file none 1 (fun l => l) (some (.stream [1] none)) none 0 (some (0, false))).loopExit =
       some LoopExit.errorLogged ∧
     (save_file none 1 (fun l => l) (some (.stream [1] none)) none 0 (some (0, false))).outcome =
       .returned none ∧
     sentinelCount
       (save_file none 1 (fun l => l) (some (.stream [1] none)) none 0 (some (0, false))).events =
       (save_file none 1 (fun l => l) (some (.stream [1] none)) none 0 (some (0, false))).workers_count) ∧
    ((save_file none 1 (fun l => l) (some (.stream [1] none)) none 0 (some (0, true))).loopExit =
       some LoopExit.stop ∧
     (save_file none 1 (fun l => l) (some (.stream [1] none)) none 0 (some (0, true))).outcome =
       .stopTransmission) := by
  have hA : (save_file none 1 (fun l => l) (some (.stream [1] none)) none 0
      (some (0, false))).loopExit = some LoopExit.errorLogged :=
    save_file_interrupt0 none 1 (fun l => l) (.stream [1] none) [1] "file.jpg" false none 0 false rfl
  have hB : (save_file none 1 (fun l => l) (some (.stream [1] none)) none 0
      (some (0, true))).loopExit = some LoopExit.stop :=
    save_file_interrupt0 none 1 (fun l => l) (.stream [1] none) [1] "file.jpg" false none 0 true rfl
  have cA := (claim_C2 none 1 (fun l => l) (.stream [1] none) [1] "file.jpg" false none 0
    (some (0, false)) rfl).1 hA
  have cB := (claim_C2 none 1 (fun l => l) (.stream [1] none) [1] "file.jpg" false none 0
    (some (0, true)) rfl).2 hB
  exact ⟨⟨hA, cA.1, cA.2.1⟩, hB, cB.1⟩

/-- C3 (amended): a `FileReference` of the stated shape (with
`totalParts = ceil(fileSize / 524288)` over the whole file) is produced on
every run whose producer loop breaks at end of input — which includes not
only full non-resuming completion but also a resumption call whose resumed
part index is at or past end of file (such a call enqueues nothing and
returns a `FileReference` whose small-mode checksum field is `None`).  A
resumption call whose part is in range, and a run whose loop failed
internally, yield no result. -/
theorem claim_C3 (me : Option Bool) (rnd : Int) (dg : List Nat → List Nat)
    (src : MediaInput) (bytes : List Nat) (nm : String) (cl : Bool) (k : Nat)
    (hsrc : open_media_file me src = .ok ⟨bytes, bytes.length, nm, cl⟩) :
    ((save_file me rnd dg (some src) none k none).outcome =
       .returned (some (if bytes.length > 10 * 1024 * 1024 then
           FileRef.inputFileBig rnd ((bytes.length + part_size - 1) / part_size) nm
         else
           FileRef.inputFile rnd ((bytes.length + part_size - 1) / part_size) nm
             (some (md5HexJoin (dg (bytes.drop (part_size * k)))))))) ∧
    (∀ f : Int, part_size * k < bytes.length →
       (save_file me rnd dg (some src) (some f) k none).outcome = .returned none) ∧
    (∀ f : Int, bytes.length ≤ part_size * k →
       (save_file me rnd dg (some src) (some f) k none).outcome =
         .returned (some (if bytes.length > 10 * 1024 * 1024 then
             FileRef.inputFileBig (pyOr (some f) rnd)
               ((bytes.length + part_size - 1) / part_size) nm
           else
             FileRef.inputFile (pyOr (some f) rnd)
               ((bytes.length + part_size - 1) / part_size) nm none))) ∧
    (∀ (intr : Option (Nat × Bool)) (fid_arg : Option Int),
       (save_file me rnd dg (some src) fid_arg k intr).loopExit = some .errorLogged →
       (save_file me rnd dg (some src) fid_arg k intr).outcome = .returned none) := by
  refine ⟨?_, ?_, ?_, ?_⟩
  · rw [save_file_valid me rnd dg src bytes nm cl none k none hsrc]
    simp only [runValid, Option.isSome_none]
    rw [producerLoop_run_eq]
    by_cases hb : bytes.length > 10 * 1024 * 1024
    · simp [outcomeOf, hb, pyOr]
    · simp [outcomeOf, hb, pyOr]
  · intro f hk
    rw [save_file_valid me rnd dg src bytes nm cl (some f) k none hsrc]
    simp only [runValid, Option.isSome_some]
    rw [producerLoop_resume]
    · rfl
    · rfl
    · exact drop_ne_nil_of_lt hk
  · intro f hk
    rw [save_file_valid me rnd dg src bytes nm cl (some f) k none hsrc]
    simp only [runValid, Option.isSome_some]
    have hdrop : bytes.drop (part_size * k) = [] := List.drop_eq_nil_iff.mpr hk
    rw [hdrop, producerLoop_atEnd]
    · by_cases hb : bytes.length > 10 * 1024 * 1024
      · simp [outcomeOf, hb]
      · simp [outcomeOf, hb]
    · rfl
  · intro intr fid_arg h
    rw [save_file_valid me rnd dg src bytes nm cl fid_arg k intr hsrc] at h ⊢
    rw [runValid_outcome_of_exit rnd dg bytes nm cl fid_arg k intr _ h]
    rfl

/-- C3 witness: the amended statement at concrete calls on a 1-byte
source (full upload, in-range resume, out-of-range resume, injected
failure). -/
theorem claim_C3_witness :
    ((save_file none 5 (fun l => l) (some (.stream [9] none)) none 0 none).outcome =
       .returned (some (if ([9] : List Nat).length > 10 * 1024 * 1024 then
           FileRef.inputFileBig 5 ((([9] : List Nat).length + part_size - 1) / part_size) "file.jpg"
         else
           FileRef.inputFile 5 ((([9] : List Nat).length + part_size - 1) / part_size) "file.jpg"
             (some (md5HexJoin (([9] : List Nat).drop (part_size * 0))))))) ∧
    ((save_file none 5 (fun l => l) (some (.stream [9] none)) (some 7) 0 none).outcome =
       .returned none) ∧
    ((save_file none 5 (fun l => l) (some (.stream [9] none)) (some 7) 1 none).outcome =
       .returned (some (if ([9] : List Nat).length > 10 * 1024 * 1024 then
           FileRef.inputFileBig (pyOr (some 7) 5)
             ((([9] : List Nat).length + part_size - 1) / part_size) "file.jpg"
         else
           FileRef.inputFile (pyOr (some 7) 5)
             ((([9] : List Nat).length + part_size - 1) / part_size) "file.jpg" none))) ∧
    ((save_file none 5 (fun l => l) (some (.stream [9] none)) none 0 (some (0, false))).outcome =
       .returned none) := by
  have h0 := claim_C3 none 5 (fun l => l) (.stream [9] none) [9] "file.jpg" false 0 rfl
  have h1 := claim_C3 none 5 (fun l => l) (.stream [9] none) [9] "file.jpg" false 1 rfl
  refine ⟨h0.1, h0.2.1 7 (by decide), h1.2.2.1 7 (by decide), ?_⟩
  exact h0.2.2.2 (some (0, false)) none
    (save_file_interrupt0 none 5 (fun l => l) (.stream [9] none) [9] "file.jpg" false none 0 false rfl)

/-- C3 counterexample: a concrete resumption call (part index past end of
file) produces a `FileReference` — contradicting "produced only on full,
non-resuming completion; in every other outcome (resumption, internal
failure) the call yields no result". -/
theorem claim_C3_counterexample :
    (save_file none 1 (fun l => l) (some (.stream [1] none)) (some 42) 1 none).outcome =
      .returned (some (FileRef.inputFile 42 1 "file.jpg" none)) := by
  rw [save_file_valid none 1 (fun l => l) (.stream [1] none) [1] "file.jpg" false
    (some 42) 1 none rfl]
  simp only [runValid, Option.isSome_some]
  have hdrop : ([1] : List Nat).drop (part_size * 1) = [] := by decide
  rw [hdrop, producerLoop_atEnd]
  · decide
  · rfl

/-- C4 (amended): the md5 accumulator is allocated iff the upload is in
small mode and not resuming, and in small non-resume mode the checksum in
the returned `FileReference` is the lowercase-hex digest of the bytes read
sequentially from offset `file_part * part_size` — which is offset 0 for
the default `file_part = 0`, but covers only the file's suffix when a
caller passes `file_part = k > 0` with `file_id = None`, contrary to the
claim's "from offset 0". -/
theorem claim_C4 (me : Option Bool) (rnd : Int) (dg : List Nat → List Nat)
    (src : MediaInput) (bytes : List Nat) (nm : String) (cl : Bool)
    (file_id : Option Int) (k : Nat) (intr : Option (Nat × Bool))
    (hsrc : open_media_file me src = .ok ⟨bytes, bytes.length, nm, cl⟩) :
    ((save_file me rnd dg (some src) file_id k intr).md5Active =
       (decide (bytes.length ≤ 10 * 1024 * 1024) && file_id.isNone)) ∧
    (bytes.length ≤ 10 * 1024 * 1024 →
       (save_file me rnd dg (some src) none k none).outcome =
         .returned (some (FileRef.inputFile rnd
           ((bytes.length + part_size - 1) / part_size) nm
           (some (md5HexJoin (dg (bytes.drop (part_size * k)))))))) := by
  constructor
  · rw [save_file_valid me rnd dg src bytes nm cl file_id k intr hsrc]
    simp only [runValid]
    rw [not_decide_gt]
    cases file_id <;> rfl
  · intro hs
    rw [save_file_valid me rnd dg src bytes nm cl none k none hsrc]
    simp only [runValid, Option.isSome_none]
    rw [producerLoop_run_eq]
    have hb : decide (bytes.length > 10 * 1024 * 1024) = false :=
      decide_eq_false (by omega)
    rw [hb]
    simp [outcomeOf, pyOr]

/-- C4 witness: the amended statement at a concrete 2-byte upload. -/
theorem claim_C4_witness :
    ((save_file none 3 (fun l => l) (some (.stream [1, 2] none)) (some 9) 0 none).md5Active =
       (decide (([1, 2] : List Nat).length ≤ 10 * 1024 * 1024) && (some (9 : Int)).isNone)) ∧
    ((save_file none 3 (fun l => l) (some (.stream [1, 2] none)) none 0 none).outcome =
       .returned (some (FileRef.inputFile 3
         ((([1, 2] : List Nat).length + part_size - 1) / part_size) "file.jpg"
         (some (md5HexJoin (([1, 2] : List Nat).drop (part_size * 0))))))) := by
  have h := claim_C4 none 3 (fun l => l) (.stream [1, 2] none) [1, 2] "file.jpg" false
    (some 9) 0 none rfl
  exact ⟨h.1, h.2 (by decide)⟩

/-- C4 counterexample: a small-mode non-resume call with `file_part = 1`
on a (`part_size + 1`)-byte source.  With the digest function
`l ↦ if |l| ≤ 1 then [0] else [255]`, the checksum actually returned is
"00" (digest of the 1-byte suffix fed to the accumulator), whereas the
digest of the full byte stream from offset 0 would be "ff" — contradicting
"the checksum equals the digest of the full byte stream read from offset
0". -/
theorem claim_C4_counterexample :
    (save_file none 3 (fun l => if l.length ≤ 1 then [0] else [255])
        (some (.stream (List.replicate 524289 7) none)) none 1 none).outcome =
      .returned (some (FileRef.inputFile 3 2 "file.jpg" (some "00"))) ∧
    md5HexJoin (if (List.replicate (524289 : Nat) (7 : Nat)).length ≤ 1
                then [0] else [255]) = "ff" ∧
    "00" ≠ "ff" := by
  refine ⟨?_, ?_, by decide⟩
  · have hsrc : open_media_file none (.stream (List.replicate 524289 7) none) =
        .ok ⟨List.replicate 524289 7, (List.replicate 524289 7).length, "file.jpg", false⟩ :=
      open_media_file_stream none (List.replicate 524289 7) none
        (by rw [List.length_replicate]; decide)
        (by rw [List.length_replicate]; decide)
    rw [save_file_valid none 3 (fun l => if l.length ≤ 1 then [0] else [255])
      (.stream (List.replicate 524289 7) none) (List.replicate 524289 7) "file.jpg" false
      none 1 none hsrc]
    simp only [runValid, Option.isSome_none]
    have hdrop : (List.replicate (524289 : Nat) (7 : Nat)).drop (part_size * 1) = [7] := by
      rw [List.drop_replicate]
      decide
    rw [hdrop, producerLoop_run_eq]
    have hlen : (List.replicate (524289 : Nat) (7 : Nat)).length = 524289 :=
      List.length_replicate 524289 7
    rw [hlen]
    decide
  · rw [List.length_replicate]
    decide

/-- C5 (amended): the number of worker tasks is fixed by the file's size
alone — 4 in big mode and 1 in small mode — including on resumption calls:
`workers_count = 4 if is_big else 1` does not consult `is_missing_part`,
so a resume on a big file uses 4 workers, not 1. -/
theorem claim_C5 (me : Option Bool) (rnd : Int) (dg : List Nat → List Nat)
    (src : MediaInput) (bytes : List Nat) (nm : String) (cl : Bool)
    (file_id : Option Int) (k : Nat) (intr : Option (Nat × Bool))
    (hsrc : open_media_file me src = .ok ⟨bytes, bytes.length, nm, cl⟩) :
    (save_file me rnd dg (some src) file_id k intr).workers_count =
      if bytes.length > 10 * 1024 * 1024 then 4 else 1 := by
  rw [save_file_valid me rnd dg src bytes nm cl file_id k intr hsrc]
  simp only [runValid]
  by_cases hb : bytes.length > 10 * 1024 * 1024 <;> simp [hb]

/-- C5 witness: the amended statement at a concrete 1-byte upload. -/
theorem claim_C5_witness :
    (save_file none 1 (fun l => l) (some (.stream [1] none)) none 0 none).workers_count =
      if ([1] : List Nat).length > 10 * 1024 * 1024 then 4 else 1 :=
  claim_C5 none 1 (fun l => l) (.stream [1] none) [1] "file.jpg" false none 0 none rfl

/-- C5 counterexample: a concrete resumption call on a 10 MiB + 1 byte
source creates 4 worker tasks — contradicting "a resume call uses 1 worker
regardless of the file's size". -/
theorem claim_C5_counterexample :
    (save_file none 1 (fun l => l)
        (some (.stream (List.replicate 10485761 0) none)) (some 42) 0 none).workers_count = 4 := by
  have hsrc : open_media_file none (.stream (List.replicate 10485761 0) none) =
      .ok ⟨List.replicate 10485761 0, (List.replicate 10485761 0).length, "file.jpg", false⟩ :=
    open_media_file_stream none (List.replicate 10485761 0) none
      (by rw [List.length_replicate]; decide)
      (by rw [List.length_replicate]; decide)
  rw [save_file_valid none 1 (fun l => l) (.stream (List.replicate 10485761 0) none)
    (List.replicate 10485761 0) "file.jpg" false (some 42) 0 none hsrc]
  simp only [runValid]
  rw [List.length_replicate]
  rfl

/-- C6 (amended): a resumption call with a nonzero caller identifier and
the resumed part in range enqueues exactly one part request carrying the
caller's `file_id`, the exact part index, the payload starting at offset
`k * part_size`, and the total part count iff big mode.  The two excluded
cases fail: `file_id = 0` is falsy in `file_id or self.rnd_id()`, so a
fresh identifier replaces it, and an out-of-range part index enqueues
nothing. -/
theorem claim_C6 (me : Option Bool) (rnd : Int) (dg : List Nat → List Nat)
    (src : MediaInput) (bytes : List Nat) (nm : String) (cl : Bool)
    (f : Int) (k : Nat)
    (hsrc : open_media_file me src = .ok ⟨bytes, bytes.length, nm, cl⟩)
    (hf : f ≠ 0) (hk : part_size * k < bytes.length) :
    putRpcs (save_file me rnd dg (some src) (some f) k none).events =
      [mkRpc (decide (bytes.length > 10 * 1024 * 1024)) f k
        ((bytes.length + part_size - 1) / part_size)
        ((bytes.drop (part_size * k)).take part_size)] := by
  rw [save_file_valid me rnd dg src bytes nm cl (some f) k none hsrc]
  simp only [runValid, Option.isSome_some]
  rw [producerLoop_resume]
  · simp [putRpcs_append, putRpcs_replicate_sentinel, putRpcs, pyOr, hf]
  · rfl
  · exact drop_ne_nil_of_lt hk

/-- C6 witness: the amended statement at a concrete resumption call. -/
theorem claim_C6_witness :
    putRpcs (save_file none 1 (fun l => l) (some (.stream [1, 2, 3] none)) (some 42) 0 none).events =
      [mkRpc (decide (([1, 2, 3] : List Nat).length > 10 * 1024 * 1024)) 42 0
        ((([1, 2, 3] : List Nat).length + part_size - 1) / part_size)
        ((([1, 2, 3] : List Nat).drop (part_size * 0)).take part_size)] :=
  claim_C6 none 1 (fun l => l) (.stream [1, 2, 3] none) [1, 2, 3] "file.jpg" false 42 0
    rfl (by decide) (by decide)

/-- C6 counterexample: (1) a resumption call with caller `file_id = 0`
enqueues a request carrying the freshly generated identifier 99 instead of
0; (2) a resumption call whose part index is past end of file enqueues no
request at all. -/
theorem claim_C6_counterexample :
    putRpcs (save_file none 99 (fun l => l) (some (.stream [5] none)) (some 0) 0 none).events =
      [Rpc.saveFilePart 99 0 [5]] ∧
    putRpcs (save_file none 1 (fun l => l) (some (.stream [5] none)) (some 7) 1 none).events = [] := by
  constructor
  · rw [save_file_valid none 99 (fun l => l) (.stream [5] none) [5] "file.jpg" false
      (some 0) 0 none rfl]
    simp only [runValid, Option.isSome_some]
    rw [producerLoop_resume]
    · decide
    · rfl
    · decide
  · rw [save_file_valid none 1 (fun l => l) (.stream [5] none) [5] "file.jpg" false
      (some 7) 1 none rfl]
    simp only [runValid, Option.isSome_some]
    have hdrop : ([5] : List Nat).drop (part_size * 1) = [] := by decide
    rw [hdrop, producerLoop_atEnd]
    · decide
    · rfl

/-- The file name reported by `open_media_file` for a valid source:
the path string itself, or the stream's `.name` attribute defaulting to
`"file.jpg"`. -/
def MediaInput.nameOf : MediaInput → String
  | .path _ n => n
  | .stream _ n => n.getD "file.jpg"
  | .invalid => "file.jpg"

/-- `open_media_file` on any valid source: empty check, then limit check,
then success with the source's bytes, name and ownership flag. -/
theorem open_media_file_eq (me : Option Bool) (src : MediaInput) (bytes : List Nat)
    (hb : src.bytesOf = some bytes) :
    open_media_file me src =
      (if bytes.length = 0 then .error .emptyFile
       else if bytes.length > limitBytes me then .error .sizeLimitExceeded
       else .ok ⟨bytes, bytes.length, src.nameOf, src.isPath⟩) := by
  cases src with
  | invalid => simp [MediaInput.bytesOf] at hb
  | path b n' =>
    simp only [MediaInput.bytesOf, Option.some.injEq] at hb
    subst hb
    rfl
  | stream b n' =>
    simp only [MediaInput.bytesOf, Option.some.injEq] at hb
    subst hb
    rfl

/-- The account size limit is positive. -/
theorem limitBytes_pos (me : Option Bool) : 0 < limitBytes me := by
  simp only [limitBytes]
  by_cases hme : me = some true
  · rw [if_pos hme]; omega
  · rw [if_neg hme]; omega

/-- `open_media_file` raises the empty-file error exactly on size 0 and the
size-limit error exactly when the size strictly exceeds the account
limit. -/
theorem open_media_file_errors (me : Option Bool) (src : MediaInput) (bytes : List Nat)
    (hb : src.bytesOf = some bytes) :
    (open_media_file me src = .error .emptyFile ↔ bytes.length = 0) ∧
    (open_media_file me src = .error .sizeLimitExceeded ↔ bytes.length > limitBytes me) := by
  have hpos := limitBytes_pos me
  rw [open_media_file_eq me src bytes hb]
  by_cases h0 : bytes.length = 0
  · rw [if_pos h0]
    refine ⟨by simp [h0], ?_⟩
    constructor
    · intro hE; exact absurd hE (by simp)
    · intro hgt; omega
  · rw [if_neg h0]
    by_cases hl : bytes.length > limitBytes me
    · rw [if_pos hl]
      exact ⟨⟨fun hE => absurd hE (by simp), fun h00 => absurd h00 h0⟩, by simp [hl]⟩
    · rw [if_neg hl]
      exact ⟨⟨fun hE => absurd hE (by simp), fun h00 => absurd h00 h0⟩,
             ⟨fun hE => absurd hE (by simp), fun hgt => absurd hgt hl⟩⟩

/-- `open_media_file` raises the invalid-input error exactly when the
source is neither a path nor a binary stream. -/
theorem open_media_file_invalid_iff (me : Option Bool) (src : MediaInput) :
    open_media_file me src = .error .invalidInput ↔ src.bytesOf = none := by
  cases src with
  | invalid => simp [open_media_file, MediaInput.bytesOf]
  | path b n' =>
    rw [open_media_file_eq me (.path b n') b rfl]
    constructor
    · intro h
      split_ifs at h <;> simp_all
    · intro h
      simp [MediaInput.bytesOf] at h
  | stream b n' =>
    rw [open_media_file_eq me (.stream b n') b rfl]
    constructor
    · intro h
      split_ifs at h <;> simp_all
    · intro h
      simp [MediaInput.bytesOf] at h

/-- C7 (amended): a `None` source returns no result without raising (the
guard at save_file.py line 197 precedes validation, so no
`InvalidInputError` for `None`, contrary to the claim); otherwise the
call raises exactly the error `open_media_file` decides: invalid-input iff
the source is neither path nor stream, empty-file iff the size is 0,
size-limit iff the size strictly exceeds the account limit (2097152000
bytes standard, 4194304000 privileged, so exactly the limit succeeds); on
every raised error no worker task has been created and nothing was
enqueued. -/
theorem claim_C7 (me : Option Bool) (rnd : Int) (dg : List Nat → List Nat)
    (fid : Option Int) (k : Nat) (intr : Option (Nat × Bool)) (src : MediaInput) :
    ((save_file me rnd dg none fid k intr).outcome = .returned none ∧
     (save_file me rnd dg none fid k intr).workers_count = 0) ∧
    (∀ e, (save_file me rnd dg (some src) fid k intr).outcome = .error e ↔
       open_media_file me src = .error e) ∧
    (∀ e, (save_file me rnd dg (some src) fid k intr).outcome = .error e →
       (save_file me rnd dg (some src) fid k intr).workers_count = 0 ∧
       (save_file me rnd dg (some src) fid k intr).events = []) ∧
    (open_media_file me src = .error .invalidInput ↔ src.bytesOf = none) ∧
    (∀ bytes, src.bytesOf = some bytes →
       (open_media_file me src = .error .emptyFile ↔ bytes.length = 0) ∧
       (open_media_file me src = .error .sizeLimitExceeded ↔ bytes.length > limitBytes me)) ∧
    limitBytes me = (if me = some true then 4194304000 else 2097152000) := by
  refine ⟨⟨rfl, rfl⟩, ?_, ?_, open_media_file_invalid_iff me src,
    open_media_file_errors me src, ?_⟩
  · intro e
    cases ho : open_media_file me src with
    | error e' => simp [save_file, ho]
    | ok f => simp [save_file, ho, outcomeOf_ne_error]
  · intro e h
    cases ho : open_media_file me src with
    | error e' => simp [save_file, ho]
    | ok f => simp [save_file, ho, outcomeOf_ne_error] at h
  · simp only [limitBytes]
    by_cases hme : me = some true
    · rw [if_pos hme, if_pos hme]
    · rw [if_neg hme, if_neg hme]

/-- C7 witness: the amended statement exercised at concrete sources
(`None`, an invalid object, an empty stream). -/
theorem claim_C7_witness :
    ((save_file none 1 (fun l => l) none none 0 none).outcome = .returned none ∧
     (save_file none 1 (fun l => l) none none 0 none).workers_count = 0) ∧
    ((save_file none 1 (fun l => l) (some .invalid) none 0 none).outcome =
       .error .invalidInput ↔ open_media_file none .invalid = .error .invalidInput) ∧
    ((save_file none 1 (fun l => l) (some .invalid) none 0 none).workers_count = 0 ∧
     (save_file none 1 (fun l => l) (some .invalid) none 0 none).events = []) ∧
    (open_media_file none .invalid = .error .invalidInput ↔
       MediaInput.invalid.bytesOf = none) ∧
    ((open_media_file none (.stream [] none) = .error .emptyFile ↔
       ([] : List Nat).length = 0) ∧
     (open_media_file none (.stream [] none) = .error .sizeLimitExceeded ↔
       ([] : List Nat).length > limitBytes none)) := by
  have h1 := claim_C7 none 1 (fun l => l) none 0 none .invalid
  have h2 := claim_C7 none 1 (fun l => l) none 0 none (.stream [] none)
  exact ⟨h1.1, h1.2.1 .invalidInput, h1.2.2.1 .invalidInput (by decide),
    h1.2.2.2.1, h2.2.2.2.2.1 [] rfl⟩

/-- C7 counterexample: `save_file` with a `None` source returns no result
and raises nothing — contradicting "fails with InvalidInputError ... (in
particular for a None source)". -/
theorem claim_C7_counterexample :
    (save_file none 1 (fun l => l) none none 0 none).outcome = .returned none ∧
    (save_file none 1 (fun l => l) none none 0 none).outcome ≠
      .error .invalidInput := by
  decide

/-- C8 (code bug): a 0-byte file opened from a path.  `open_media_file`
raises the empty-file `ValueError` at save_file.py line 123, before its
`try/finally` at lines 129-133, so the stream the component itself opened
at line 109 is never closed — the claim (and the spec's resource-release
requirement) says every exit path closes it. -/
theorem claim_C8 :
    (save_file none 1 (fun l => l) (some (.path [] "f.bin")) none 0 none).outcome =
      .error .emptyFile ∧
    (save_file none 1 (fun l => l) (some (.path [] "f.bin")) none 0 none).fpOpened = true ∧
    (save_file none 1 (fun l => l) (some (.path [] "f.bin")) none 0 none).fpClosed = false := by
  decide

/-- C9 (amended): in non-resume mode exactly one progress notification is
emitted per enqueued part, the j-th carrying
`min ((k + j + 1) * part_size, file_size)` for the running part index
starting at `file_part = k`; a resumption call enqueues its one part and
returns before the notification line, so it emits none — contrary to the
claim's "including the single part enqueued by a resumption call". -/
theorem claim_C9 (me : Option Bool) (rnd : Int) (dg : List Nat → List Nat)
    (src : MediaInput) (bytes : List Nat) (nm : String) (cl : Bool)
    (k : Nat) (f : Int)
    (hsrc : open_media_file me src = .ok ⟨bytes, bytes.length, nm, cl⟩) :
    (progressValues (save_file me rnd dg (some src) none k none).events =
       progressSpec bytes.length k (chunksOf (bytes.drop (part_size * k))).length ∧
     (putRpcs (save_file me rnd dg (some src) none k none).events).length =
       (chunksOf (bytes.drop (part_size * k))).length) ∧
    (part_size * k < bytes.length →
       (putRpcs (save_file me rnd dg (some src) (some f) k none).events).length = 1 ∧
       progressValues (save_file me rnd dg (some src) (some f) k none).events = []) := by
  constructor
  · rw [save_file_valid me rnd dg src bytes nm cl none k none hsrc]
    simp only [runValid, Option.isSome_none]
    rw [producerLoop_run_eq]
    constructor
    · simp only [progressValues_append, progressValues_replicate_sentinel, List.append_nil]
      rw [progressValues_dispatchEvents]
    · simp only [putRpcs_append, putRpcs_replicate_sentinel, List.append_nil]
      rw [putRpcs_dispatchEvents, rpcsFor_length]
  · intro hk
    rw [save_file_valid me rnd dg src bytes nm cl (some f) k none hsrc]
    simp only [runValid, Option.isSome_some]
    rw [producerLoop_resume]
    · constructor
      · simp [putRpcs_append, putRpcs_replicate_sentinel, putRpcs]
      · simp [progressValues_append, progressValues_replicate_sentinel, progressValues]
    · rfl
    · exact drop_ne_nil_of_lt hk

/-- C9 witness: the amended statement at a concrete 3-byte upload and a
concrete resumption call. -/
theorem claim_C9_witness :
    (progressValues (save_file none 1 (fun l => l) (some (.stream [1, 2, 3] none)) none 0 none).events =
       progressSpec ([1, 2, 3] : List Nat).length 0
         (chunksOf (([1, 2, 3] : List Nat).drop (part_size * 0))).length ∧
     (putRpcs (save_file none 1 (fun l => l) (some (.stream [1, 2, 3] none)) none 0 none).events).length =
       (chunksOf (([1, 2, 3] : List Nat).drop (part_size * 0))).length) ∧
    ((putRpcs (save_file none 1 (fun l => l) (some (.stream [1, 2, 3] none)) (some 8) 0 none).events).length = 1 ∧
     progressValues (save_file none 1 (fun l => l) (some (.stream [1, 2, 3] none)) (some 8) 0 none).events = []) := by
  have h := claim_C9 none 1 (fun l => l) (.stream [1, 2, 3] none) [1, 2, 3] "file.jpg" false 0 8 rfl
  exact ⟨h.1, h.2 (by decide)⟩

/-- C9 counterexample: a concrete resumption call enqueues one part but
emits zero progress notifications — contradicting "exactly one progress
notification is emitted for every successfully enqueued part ...
including the single part enqueued by a resumption call". -/
theorem claim_C9_counterexample :
    (putRpcs (save_file none 1 (fun l => l) (some (.stream [1, 2] none)) (some 3) 0 none).events).length = 1 ∧
    progressValues (save_file none 1 (fun l => l) (some (.stream [1, 2] none)) (some 3) 0 none).events = [] := by
  rw [save_file_valid none 1 (fun l => l) (.stream [1, 2] none) [1, 2] "file.jpg" false
    (some 3) 0 none rfl]
  simp only [runValid, Option.isSome_some]
  rw [producerLoop_resume]
  · decide
  · rfl
  · decide

/-- C10 (confirmed): a call with `file_id = None` and `file_part = k > 0`
runs a full non-resume upload of the suffix starting at offset
`k * part_size`: part indices count up from `k`, the small-mode checksum
covers exactly the suffix bytes, and the returned parts count is still
`ceil(fileSize / 524288)` computed over the whole file. -/
theorem claim_C10 (me : Option Bool) (rnd : Int) (dg : List Nat → List Nat)
    (src : MediaInput) (bytes : List Nat) (nm : String) (cl : Bool) (k : Nat)
    (hsrc : open_media_file me src = .ok ⟨bytes, bytes.length, nm, cl⟩)
    (hsmall : bytes.length ≤ 10 * 1024 * 1024) :
    (save_file me rnd dg (some src) none k none).outcome =
      .returned (some (FileRef.inputFile rnd ((bytes.length + part_size - 1) / part_size) nm
        (some (md5HexJoin (dg (bytes.drop (part_size * k))))))) ∧
    putRpcs (save_file me rnd dg (some src) none k none).events =
      rpcsFor false rnd ((bytes.length + part_size - 1) / part_size) k
        (chunksOf (bytes.drop (part_size * k))) := by
  have hb : decide (bytes.length > 10 * 1024 * 1024) = false := decide_eq_false (by omega)
  rw [save_file_valid me rnd dg src bytes nm cl none k none hsrc]
  simp only [runValid, Option.isSome_none]
  rw [producerLoop_run_eq, hb]
  constructor
  · simp [outcomeOf, pyOr]
  · simp only [putRpcs_append, putRpcs_replicate_sentinel, List.append_nil]
    rw [putRpcs_dispatchEvents]
    simp [pyOr]

/-- C10 witness: the suffix-upload behaviour at a concrete 3-byte source
with `file_part = 1`. -/
theorem claim_C10_witness :
    ([1, 2, 3] : List Nat).length ≤ 10 * 1024 * 1024 ∧
    ((save_file none 6 (fun l => l) (some (.stream [1, 2, 3] none)) none 1 none).outcome =
       .returned (some (FileRef.inputFile 6
         ((([1, 2, 3] : List Nat).length + part_size - 1) / part_size) "file.jpg"
         (some (md5HexJoin (([1, 2, 3] : List Nat).drop (part_size * 1)))))) ∧
     putRpcs (save_file none 6 (fun l => l) (some (.stream [1, 2, 3] none)) none 1 none).events =
       rpcsFor false 6 ((([1, 2, 3] : List Nat).length + part_size - 1) / part_size) 1
         (chunksOf (([1, 2, 3] : List Nat).drop (part_size * 1)))) :=
  ⟨by decide,
   claim_C10 none 6 (fun l => l) (.stream [1, 2, 3] none) [1, 2, 3] "file.jpg" false 1
     rfl (by decide)⟩

/-- C1 counterexample: on a concrete resumption call the event trace does
contain a shutdown sentinel after the single enqueue, and the worker pool
is awaited — contradicting "does not wait for any worker task to finish,
does not enqueue shutdown sentinels". -/
theorem claim_C1_counterexample :
    (save_file none 1 (fun l => l) (some (.stream [1, 2, 3] none)) (some 42) 0 none).events =
      [Event.put (Rpc.saveFilePart 42 0 [1, 2, 3]), Event.sentinel] ∧
    (save_file none 1 (fun l => l) (some (.stream [1, 2, 3] none)) (some 42) 0 none).workersAwaited =
      true := by
  have hsrc : open_media_file none (MediaInput.stream [1, 2, 3] none) =
      .ok ⟨[1, 2, 3], ([1, 2, 3] : List Nat).length, "file.jpg", false⟩ := rfl
  rw [save_file_valid none 1 (fun l => l) (.stream [1, 2, 3] none) [1, 2, 3] "file.jpg" false
    (some 42) 0 none hsrc]
  simp only [runValid, Option.isSome_some]
  rw [producerLoop_resume]
  · decide
  · rfl
  · decide

end Pyro
